import Mathlib

/-!
Verification of the HenokT/blog repository: two Deno entry modules
(`src/main.ts` and an unnamed sibling module) that each build one
`SiteConfig` literal and hand it to the external `blog` entry point,
plus static Markdown content files with front-matter blocks.
-/

/-- A navigation link of the site configuration: `{ title, url }`. -/
structure Link where
  title : String
  url : String
deriving DecidableEq, Repr

/-- The middleware transforms importable from the blog library
(`ga` and `redirects` are the two named imports in `src/main.ts`).
In the shipped configuration every use of them is commented out. -/
inductive Middleware where
  | ga (key : String)
  | redirects (mapping : List (String × String))
deriving DecidableEq, Repr

/-- The configuration record accepted by the external `blog` entry point,
restricted to the fields the two entry modules actually set.  A field an
entry module omits from its object literal is `none`. -/
structure SiteConfig where
  title : String
  author : String
  description : Option String := none
  avatar : String
  avatarClass : String
  background : Option String := none
  links : List Link
  readtime : Option Bool := none
  middlewares : Option (List Middleware) := none
deriving DecidableEq, Repr

/-- The import URL of the blog library in `src/main.ts`. -/
def mainImportUrl : String := "https://deno.land/x/blog@0.3.3/blog.tsx"

/-- The import URL of the blog library in `src/unnamed/part_000`. -/
def part000ImportUrl : String :=
  "https://raw.githubusercontent.com/denoland/deno_blog/main/blog.tsx"

/-- The `SiteConfig` object literal passed to `blog` in `src/main.ts`.
The `middlewares` entry there is commented out, so the field is absent. -/
def mainConfig : SiteConfig :=
  { title := "Henok Tadesse"
    author := "Henok Tadesse"
    avatar := "avatar.jpg"
    avatarClass := "rounded-full"
    background := some "#f9f9f9"
    links := [
      { title := "Email", url := "mailto:hegystyle@gmail.com" },
      { title := "Github", url := "https://github.com/HenokT" }] }

/-- The `SiteConfig` object literal passed to `blog` in
`src/unnamed/part_000`.  Its `middlewares` entry is an explicit list
whose every element is commented out, hence `some []`. -/
def part000Config : SiteConfig :=
  { author := "Henok Tadesse"
    title := "Henok Tadesse"
    description :=
      some "A personal blog where I share what I learn as a sofware developer."
    avatar := "avatar.jpg"
    avatarClass := "rounded-full"
    links := [
      { title := "Email", url := "mailto:hegystyle@gmail.com" },
      { title := "Github", url := "https://github.com/HenokT" }]
    readtime := some true
    middlewares := some [] }

/-- The middleware transforms that are active for a configuration: an
absent `middlewares` field activates none, just like an empty one. -/
def activeMiddlewares (c : SiteConfig) : List Middleware :=
  c.middlewares.getD []

/-- Observable effects an entry module could perform.  `callBlog` is an
invocation of the external entry point; `writeField` is a mutation of a
field of an already-built record; `otherEffect` is any further
observable action (I/O, network, ...). -/
inductive Effect where
  | callBlog (config : SiteConfig)
  | writeField (field : String)
  | otherEffect (description : String)
deriving DecidableEq, Repr

/-- Whether an effect is an invocation of the external entry point. -/
def Effect.isCallBlog : Effect → Bool
  | .callBlog _ => true
  | _ => false

/-- Whether an effect mutates a field of the configuration record. -/
def Effect.isWriteField : Effect → Bool
  | .writeField _ => true
  | _ => false

/-- The effect trace of `src/main.ts`: its top level consists of
the import and the single call of the entry point. -/
def mainProgram : List Effect := [Effect.callBlog mainConfig]

/-- The effect trace of `src/unnamed/part_000`: its top level likewise
consists of the import and the single call of the entry point. -/
def part000Program : List Effect := [Effect.callBlog part000Config]

/-- The configuration `src/main.ts` builds, as a function of the ambient
process inputs (command-line arguments and environment).  The source
references neither: the literal is closed over compile-time constants. -/
def mainConfigOf (_argv : List String) (_env : List (String × String)) :
    SiteConfig :=
  mainConfig

/-- The configuration `src/unnamed/part_000` builds, as a function of
the ambient process inputs; the source references neither. -/
def part000ConfigOf (_argv : List String) (_env : List (String × String)) :
    SiteConfig :=
  part000Config

/-- Configuration construction in an error-aware model.  The source
builds the record from string, boolean and list literals alone, with no
fallible step, so the construction succeeds for every choice of field
values. -/
def buildConfig (t a : String) (desc : Option String) (av avc : String)
    (bg : Option String) (lks : List Link) (rt : Option Bool)
    (mws : Option (List Middleware)) : Except String SiteConfig :=
  Except.ok
    { title := t, author := a, description := desc, avatar := av,
      avatarClass := avc, background := bg, links := lks,
      readtime := rt, middlewares := mws }

/-- A calendar date as `year-month-day`. -/
structure Date where
  year : Nat
  month : Nat
  day : Nat
deriving DecidableEq, Repr

/-- Whether a year is a leap year of the Gregorian calendar. -/
def isLeapYear (y : Nat) : Bool :=
  (y % 4 == 0 && y % 100 != 0) || y % 400 == 0

/-- Number of days of a month of a given year. -/
def daysInMonth (y m : Nat) : Nat :=
  if m == 2 then (if isLeapYear y then 29 else 28)
  else if m == 4 || m == 6 || m == 9 || m == 11 then 30
  else 31

/-- Whether a `Date` is a valid calendar date. -/
def validDate (d : Date) : Bool :=
  1 ≤ d.month && d.month ≤ 12 && 1 ≤ d.day && d.day ≤ daysInMonth d.year d.month

/-- Strip one pair of enclosing double quotes from a front-matter value. -/
def stripQuotes (l : List Char) : List Char :=
  if l.length ≥ 2 && l.head? == some '\"' && l.getLast? == some '\"' then
    (l.drop 1).dropLast
  else l

/-- Split a line at the first occurrence of `: ` into key and value. -/
def splitKeyValue : List Char → Option (List Char × List Char)
  | [] => none
  | ':' :: ' ' :: rest => some ([], rest)
  | x :: xs => (splitKeyValue xs).map (fun p => (x :: p.1, p.2))

/-- Split a character list on a separator character. -/
def splitOnChar (c : Char) : List Char → List Char → List (List Char)
  | [], acc => [acc.reverse]
  | x :: xs, acc =>
    if x == c then acc.reverse :: splitOnChar c xs []
    else splitOnChar c xs (x :: acc)

/-- Parse a non-empty run of decimal digits as a natural number. -/
def parseNatDigits : List Char → Nat → Option Nat
  | [], acc => some acc
  | c :: cs, acc =>
    if c.isDigit then parseNatDigits cs (acc * 10 + (c.toNat - 48)) else none

/-- Parse a decimal natural number; the empty list is rejected. -/
def parseNatL : List Char → Option Nat
  | [] => none
  | l => parseNatDigits l 0

/-- Modelled from the spec: the front-matter line format `key: value`
(the parser itself belongs to the external rendering engine and is not
in this repository).  A line splits at the first `: ` into a key and a
value; the value may be enclosed in double quotes. -/
def parseFrontMatterLine (s : String) : Option (String × String) :=
  match splitKeyValue s.toList with
  | none => none
  | some (k, v) => some (String.mk k, String.mk (stripQuotes v))

/-- Modelled from the spec: a front-matter block is the lines between a
leading `---` line and the next `---` line, each of the form
`key: value` (format owned by the external rendering engine). -/
def parseFrontMatterBlock (lines : List String) : Option (List (String × String)) :=
  match lines with
  | [] => none
  | d :: rest =>
    if d == "---" && rest.contains "---" then
      (rest.takeWhile (fun l => l != "---")).mapM parseFrontMatterLine
  else none

/-- Look up the first value bound to a key in a parsed front-matter block. -/
def fmLookup (k : String) (kvs : List (String × String)) : Option String :=
  (kvs.find? (fun p => p.1 == k)).map Prod.snd

/-- Parse a `yyyy-mm-dd` date string. -/
def parseDate (s : String) : Option Date :=
  match splitOnChar '-' s.toList [] with
  | [y, m, d] => do
    let yn ← parseNatL y
    let mn ← parseNatL m
    let dn ← parseNatL d
    pure { year := yn, month := mn, day := dn }
  | _ => none

/-- The record the spec says each front-matter block parses to:
`title`, `publish_date`, and optionally `pathname`. -/
structure FrontMatter where
  title : String
  publish_date : Date
  pathname : Option String
deriving DecidableEq, Repr

/-- Modelled from the spec: extraction of the front-matter record
`\x7btitle: string, publish_date: date, pathname: optional string\x7d`
from a parsed block; fails when `title` or `publish_date` is missing or
the date does not parse. -/
def extractFrontMatter (kvs : List (String × String)) : Option FrontMatter := do
  let t ← fmLookup "title" kvs
  let ds ← fmLookup "publish_date" kvs
  let d ← parseDate ds
  pure { title := t, publish_date := d, pathname := fmLookup "pathname" kvs }

/-- The parsed front-matter record of a content file, given its lines. -/
def frontMatterOf (lines : List String) : Option FrontMatter :=
  (parseFrontMatterBlock lines).bind extractFrontMatter

/-- Whether a content file (given by its lines) carries a well-formed
front matter: it parses, its `title` is non-empty, and its
`publish_date` is a valid calendar date. -/
def wellFormedFrontMatter (lines : List String) : Bool :=
  match frontMatterOf lines with
  | some fm => fm.title != "" && validDate fm.publish_date
  | none => false

/-- The opening lines of `src/posts/jetpack-compose.md`. -/
def jetpackComposeLines : List String :=
  ["---",
   "title: An Introduction to Android Jetpack Compose",
   "publish_date: 2022-06-10",
   "---"]

/-- The opening lines of `src/posts/page-chat.md`. -/
def pageChatLines : List String :=
  ["---",
   "title: \"Enhance Your Web Browsing Experience with Our Chrome Extension: PageChat\"",
   "pathname: \"/enhance-your-web-browsing-experience-with-pagechat-our-chrome-extension-and-how-we-built-it\"",
   "publish_date: 2023-06-08",
   "---"]

/-- The opening lines of `src/drafts/promise-all-settled.md`. -/
def promiseAllSettledLines : List String :=
  ["---",
   "title: A better Promise.all",
   "publish_date: 2022-06-22",
   "---"]

/-- The opening lines of `src/unnamed/part_001` (a Markdown post on
React hooks). -/
def part001Lines : List String :=
  ["---",
   "title: Remembering the previous value of a prop or a state while using React Hooks",
   "publish_date: 2019-06-15",
   "---"]

/-- C1: in both startup `SiteConfig` literals, `links` is exactly the
two-element ordered sequence of the Email entry
(`mailto:hegystyle@gmail.com`) followed by the Github entry
(`https://github.com/HenokT`), and nothing else. -/
theorem links_exactly_email_then_github :
    mainConfig.links =
      [{ title := "Email", url := "mailto:hegystyle@gmail.com" },
       { title := "Github", url := "https://github.com/HenokT" }] ∧
    part000Config.links =
      [{ title := "Email", url := "mailto:hegystyle@gmail.com" },
       { title := "Github", url := "https://github.com/HenokT" }] := by
  decide

/-- C2: in both startup `SiteConfig` literals, `title` and `author` are
both the string `Henok Tadesse`. -/
theorem title_and_author_are_henok_tadesse :
    mainConfig.title = "Henok Tadesse" ∧
    mainConfig.author = "Henok Tadesse" ∧
    part000Config.title = "Henok Tadesse" ∧
    part000Config.author = "Henok Tadesse" := by
  decide

/-- C3: no middleware transform is active in either shipped
configuration: `src/unnamed/part_000` sets `middlewares` to the explicit
empty list, `src/main.ts` leaves the field out entirely (its stanza is
commented out), and in both cases the sequence of active middlewares is
empty. -/
theorem middlewares_empty_in_shipped_config :
    activeMiddlewares mainConfig = [] ∧
    activeMiddlewares part000Config = [] ∧
    part000Config.middlewares = some [] ∧
    mainConfig.middlewares = none := by
  decide

/-- C4: the front-matter block of every Markdown content file of the
repository parses to a record with a non-empty `title` and a valid
calendar `publish_date`; `pathname` appears only as an optional extra
(present in `page-chat.md`, absent elsewhere). -/
theorem all_front_matter_well_formed :
    wellFormedFrontMatter jetpackComposeLines = true ∧
    wellFormedFrontMatter pageChatLines = true ∧
    wellFormedFrontMatter promiseAllSettledLines = true ∧
    wellFormedFrontMatter part001Lines = true ∧
    (frontMatterOf pageChatLines).map FrontMatter.pathname =
      some (some "/enhance-your-web-browsing-experience-with-pagechat-our-chrome-extension-and-how-we-built-it") ∧
    (frontMatterOf jetpackComposeLines).map FrontMatter.pathname =
      some none := by
  decide

/-- C5: the only effect of each entry module is a single invocation of
the external `blog` entry point, carrying its `SiteConfig` record; the
trace holds no write and no other observable effect. -/
theorem only_effect_is_one_blog_call :
    mainProgram.length = 1 ∧
    mainProgram.head? = some (Effect.callBlog mainConfig) ∧
    mainProgram.all Effect.isCallBlog = true ∧
    part000Program.length = 1 ∧
    part000Program.head? = some (Effect.callBlog part000Config) ∧
    part000Program.all Effect.isCallBlog = true := by
  decide

/-- C6: the configuration record is constructed exactly once (one
`callBlog` effect per trace) and no effect of either trace writes a
field of the record afterward. -/
theorem config_constructed_once_never_mutated :
    mainProgram.countP Effect.isCallBlog = 1 ∧
    part000Program.countP Effect.isCallBlog = 1 ∧
    mainProgram.all (fun e => !e.isWriteField) = true ∧
    part000Program.all (fun e => !e.isWriteField) = true := by
  decide

/-- C7: the configuration handed to the entry point is independent of
command-line arguments and environment: any two runs produce the same
`SiteConfig` value, namely the compile-time literal. -/
theorem config_deterministic_across_runs :
    ∀ (argv1 : List String) (env1 : List (String × String))
      (argv2 : List String) (env2 : List (String × String)),
      mainConfigOf argv1 env1 = mainConfigOf argv2 env2 ∧
      mainConfigOf argv1 env1 = mainConfig ∧
      part000ConfigOf argv1 env1 = part000ConfigOf argv2 env2 ∧
      part000ConfigOf argv1 env1 = part000Config := by
  intro argv1 env1 argv2 env2
  exact ⟨rfl, rfl, rfl, rfl⟩

/-- C8: configuration construction is total and never yields an error
value, for any choice of field literals; at the shipped literals it
yields exactly the shipped record. -/
theorem config_construction_never_fails :
    (∀ (t a : String) (desc : Option String) (av avc : String)
       (bg : Option String) (lks : List Link) (rt : Option Bool)
       (mws : Option (List Middleware)),
       (buildConfig t a desc av avc bg lks rt mws).isOk = true) ∧
    buildConfig "Henok Tadesse" "Henok Tadesse" none "avatar.jpg"
      "rounded-full" (some "#f9f9f9") mainConfig.links none none =
      Except.ok mainConfig := by
  exact ⟨fun t a desc av avc bg lks rt mws => rfl, rfl⟩

/-- C9: the two entry modules, one importing `blog@0.3.3` and the other
the github main version, each invoke the entry point exactly once, and
their configuration records agree on `title`, `author`, `avatar`,
`avatarClass` and the whole ordered `links` sequence. -/
theorem entry_modules_agree_on_shared_fields :
    mainImportUrl = "https://deno.land/x/blog@0.3.3/blog.tsx" ∧
    part000ImportUrl =
      "https://raw.githubusercontent.com/denoland/deno_blog/main/blog.tsx" ∧
    mainProgram.countP Effect.isCallBlog = 1 ∧
    part000Program.countP Effect.isCallBlog = 1 ∧
    mainConfig.title = part000Config.title ∧
    mainConfig.author = part000Config.author ∧
    mainConfig.avatar = part000Config.avatar ∧
    mainConfig.avatarClass = part000Config.avatarClass ∧
    mainConfig.links = part000Config.links := by
  decide

/-- C10: the two configuration literals differ exactly in
`description`, `readtime` and `middlewares` (set only by
`src/unnamed/part_000`, with the stated values) and `background` (set
only by `src/main.ts`, to `#f9f9f9`); every other field agrees. -/
theorem entry_modules_differ_only_in_stated_fields :
    part000Config.description =
      some "A personal blog where I share what I learn as a sofware developer." ∧
    part000Config.readtime = some true ∧
    part000Config.middlewares = some [] ∧
    mainConfig.description = none ∧
    mainConfig.readtime = none ∧
    mainConfig.middlewares = none ∧
    mainConfig.background = some "#f9f9f9" ∧
    part000Config.background = none ∧
    mainConfig.title = part000Config.title ∧
    mainConfig.author = part000Config.author ∧
    mainConfig.avatar = part000Config.avatar ∧
    mainConfig.avatarClass = part000Config.avatarClass ∧
    mainConfig.links = part000Config.links := by
  decide
